import Mathlib

/-!
A shallow embedding of the data pipeline of the `youtube-analysis-app`
repository (files `app.py` and `utils/data_loader.py`), together with
theorems checking the repository's specification against it.

Modelling conventions:
* A pandas cell of a counter column is `CVal`: a number, a raw string, or a
  missing value (NaN).  `pd.to_numeric(col, errors='coerce').fillna(0)` is
  `toNumericCol` built on the per-cell coercion `coerceCell`, where string
  parsing follows Python number literals (`parseNumber`).
* A dataframe is a record of optional columns (a column is `none` when it is
  absent from `df.columns`), plus the row count `len(df)`.
* Machine floats are modelled as exact rationals `ℚ`.
* Dates are modelled opaquely: a `Timestamp` only carries the two
  observations the program extracts (`dt.hour`, `dt.day_name()`), and
  `pd.to_datetime` is the identity on that model.
* `DataFrame.sample(n, random_state)` is pandas library code, not part of the
  repository; per the spec it is a deterministic fixed-seed subsample, modelled
  here as a seed-indexed selection of `n` distinct row indices (`sampleIdx`).
-/

/-- One cell of a raw tabular column: a parsed number, a raw string, or a
missing value (pandas NaN). -/
inductive CVal where
  | num (q : ℚ)
  | str (s : String)
  | na
deriving DecidableEq, Repr

/-- Numeric value of a digit character. -/
def digitVal (c : Char) : ℕ := c.toNat - 48

/-- Value of a list of decimal digit characters. -/
def natOfDigits (l : List Char) : ℕ := l.foldl (fun a c => a * 10 + digitVal c) 0

/-- Parse an unsigned decimal literal (digits with an optional fractional
part), as Python's float parsing accepts after the sign. -/
def parseUnsigned (l : List Char) : Option ℚ :=
  let ip := l.takeWhile (·.isDigit)
  let rest := l.dropWhile (·.isDigit)
  match rest with
  | [] => if ip.isEmpty then none else some ((natOfDigits ip : ℚ))
  | '.' :: fp =>
      if fp.all (·.isDigit) && (!ip.isEmpty || !fp.isEmpty) then
        some ((natOfDigits ip : ℚ) + (natOfDigits fp : ℚ) / (10 : ℚ) ^ fp.length)
      else none
  | _ => none

/-- Parse a decimal number with an optional sign: the model of what
`pd.to_numeric` accepts on a string cell (unparseable input gives `none`,
which `errors='coerce'` turns into NaN). -/
def parseNumber (s : String) : Option ℚ :=
  match s.data with
  | [] => none
  | '-' :: rest => (parseUnsigned rest).map (fun q => -q)
  | '+' :: rest => parseUnsigned rest
  | l => parseUnsigned l

/-- Per-cell semantics of `pd.to_numeric(col, errors='coerce').fillna(0)`
(app.py line 74): numbers stay as they are, parseable strings become their
value, anything else becomes 0. -/
def coerceCell : CVal → ℚ
  | .num q => q
  | .str s => (parseNumber s).getD 0
  | .na => 0

/-- Column-level numeric coercion (app.py lines 71-74): every cell of the
column becomes a number. -/
def toNumericCol (col : List CVal) : List CVal :=
  col.map (fun c => CVal.num (coerceCell c))

/-- Read the numeric values out of a (coerced) column. -/
def colQ (col : List CVal) : List ℚ := col.map coerceCell

/-- The fixed category lookup table of app.py lines 58-64. -/
def category_mapping : List (Int × String) :=
  [(1, "Film & Animation"), (2, "Autos & Vehicles"), (10, "Music"),
   (15, "Pets & Animals"), (17, "Sports"), (19, "Travel & Events"),
   (20, "Gaming"), (22, "People & Blogs"), (23, "Comedy"),
   (24, "Entertainment"), (25, "News & Politics"), (26, "Howto & Style"),
   (27, "Education"), (28, "Science & Technology"), (29, "Nonprofits & Activism")]

/-- `df['category_id'].map(category_mapping)` followed by
`.fillna('Unknown')` (app.py lines 67-68), per cell. -/
def categoryName (code : Int) : String :=
  (category_mapping.lookup code).getD "Unknown"

/-- app.py line 77: `(likes + comment_count) / (views + 1) * 100`. -/
def engagementRate (likes comments views : ℚ) : ℚ :=
  (likes + comments) / (views + 1) * 100

/-- app.py line 80: `likes / (likes + dislikes + 1) * 100`. -/
def likeRatio (likes dislikes : ℚ) : ℚ :=
  likes / (likes + dislikes + 1) * 100

/-- Python's `str.split(sep)` on a list of characters (always yields at
least one token; splitting the empty string yields `[[]]`). -/
def pySplit (sep : Char) : List Char → List (List Char)
  | [] => [[]]
  | c :: rest =>
      let r := pySplit sep rest
      if c = sep then [] :: r
      else
        match r with
        | [] => [[c]]
        | t :: ts => (c :: t) :: ts

/-- Python's `str(x)` on a cell: a NaN cell prints as the placeholder
string "nan". -/
def CVal.pyStr : CVal → String
  | .num q => toString q
  | .str s => s
  | .na => "nan"

/-- app.py line 83: `len(str(x).split('|'))` for one tags cell. -/
def tagsCountCell (c : CVal) : ℕ :=
  (pySplit '|' (CVal.pyStr c).data).length

/-- The two observations the program extracts from a publish timestamp
(`dt.hour` and `dt.day_name()`); the rest of the datetime is opaque. -/
structure Timestamp where
  hour : ℕ
  dayName : String
deriving DecidableEq, Repr

/-- Opaque model of parsing `trending_date` (app.py line 52); the parsed
value is never observed by the program, so the cell is carried through. -/
def parseTrendingDate (s : String) : String := s

/-- Opaque model of `pd.to_datetime` on a publish-time cell
(app.py line 55). -/
def toDatetime (t : Timestamp) : Timestamp := t

/-- A pandas dataframe of the shapes this program handles: a row count and
one optional column per known column name (`none` models a name missing
from `df.columns`). -/
structure DataFrame where
  nrows : ℕ
  video_id : Option (List String) := none
  title : Option (List String) := none
  channel_title : Option (List String) := none
  category_id : Option (List Int) := none
  views : Option (List CVal) := none
  likes : Option (List CVal) := none
  dislikes : Option (List CVal) := none
  comment_count : Option (List CVal) := none
  tags : Option (List CVal) := none
  publish_time : Option (List Timestamp) := none
  trending_date : Option (List String) := none
  category_name : Option (List String) := none
  engagement_rate : Option (List ℚ) := none
  like_ratio : Option (List ℚ) := none
  tags_count : Option (List ℕ) := none
  publish_hour : Option (List ℕ) := none
  publish_day : Option (List String) := none
  title_length : Option (List ℕ) := none
deriving DecidableEq, Repr

/-- Modelled from the spec: the row indices kept by
`df.sample(n, random_state=seed)`.  pandas' sampler is library code not in
the repository; the spec only requires a deterministic fixed-seed selection
of `n` distinct rows, modelled as a seed-dependent rotation of the index
range followed by a prefix. -/
def sampleIdx (nrows n seed : ℕ) : List ℕ :=
  ((List.range nrows).rotate seed).take n

/-- Select the cells of a column at the given row indices. -/
def selectRows (idxs : List ℕ) (col : List α) : List α :=
  idxs.filterMap (fun i => col[i]?)

/-- Modelled from the spec: `df.sample(n, random_state=seed)` applied to a
whole dataframe — every present column is restricted to the same sampled
index list. -/
def sampleFrame (df : DataFrame) (n seed : ℕ) : DataFrame :=
  let idxs := sampleIdx df.nrows n seed
  { nrows := min df.nrows n,
    video_id := df.video_id.map (selectRows idxs),
    title := df.title.map (selectRows idxs),
    channel_title := df.channel_title.map (selectRows idxs),
    category_id := df.category_id.map (selectRows idxs),
    views := df.views.map (selectRows idxs),
    likes := df.likes.map (selectRows idxs),
    dislikes := df.dislikes.map (selectRows idxs),
    comment_count := df.comment_count.map (selectRows idxs),
    tags := df.tags.map (selectRows idxs),
    publish_time := df.publish_time.map (selectRows idxs),
    trending_date := df.trending_date.map (selectRows idxs),
    category_name := df.category_name.map (selectRows idxs),
    engagement_rate := df.engagement_rate.map (selectRows idxs),
    like_ratio := df.like_ratio.map (selectRows idxs),
    tags_count := df.tags_count.map (selectRows idxs),
    publish_hour := df.publish_hour.map (selectRows idxs),
    publish_day := df.publish_day.map (selectRows idxs),
    title_length := df.title_length.map (selectRows idxs) }

/-- app.py lines 51-55: parse the date columns when present. -/
def dateStep (df : DataFrame) : DataFrame :=
  let df := { df with trending_date := df.trending_date.map (List.map parseTrendingDate) }
  { df with publish_time := df.publish_time.map (List.map toDatetime) }

/-- app.py lines 66-68: derive `category_name` when `category_id` is
present (`if 'category_id' in df.columns`); otherwise the column is left
as it was. -/
def categoryStep (df : DataFrame) : DataFrame :=
  { df with category_name :=
      match df.category_id with
      | some codes => some (codes.map categoryName)
      | none => df.category_name }

/-- app.py lines 71-74: coerce each numeric counter column that is
present. -/
def numericStep (df : DataFrame) : DataFrame :=
  { df with views := df.views.map toNumericCol,
            likes := df.likes.map toNumericCol,
            dislikes := df.dislikes.map toNumericCol,
            comment_count := df.comment_count.map toNumericCol }

/-- zip three lists with a ternary function (row-aligned column
arithmetic). -/
def zipWith3 (f : α → β → γ → δ) : List α → List β → List γ → List δ
  | a :: as, b :: bs, c :: cs => f a b c :: zipWith3 f as bs cs
  | _, _, _ => []

/-- app.py lines 76-77: derive `engagement_rate` when all three input
columns are present. -/
def engagementStep (df : DataFrame) : DataFrame :=
  { df with engagement_rate :=
      match df.views, df.likes, df.comment_count with
      | some v, some l, some c => some (zipWith3 engagementRate (colQ l) (colQ c) (colQ v))
      | _, _, _ => df.engagement_rate }

/-- app.py lines 79-80: derive `like_ratio` when likes and dislikes are
present. -/
def likeRatioStep (df : DataFrame) : DataFrame :=
  { df with like_ratio :=
      match df.likes, df.dislikes with
      | some l, some d => some (List.zipWith likeRatio (colQ l) (colQ d))
      | _, _ => df.like_ratio }

/-- app.py lines 82-83: derive `tags_count` when the tag column is
present. -/
def tagsStep (df : DataFrame) : DataFrame :=
  { df with tags_count :=
      match df.tags with
      | some t => some (t.map tagsCountCell)
      | none => df.tags_count }

/-- app.py lines 85-87: derive `publish_hour` and `publish_day` when the
publish timestamp is present. -/
def publishStep (df : DataFrame) : DataFrame :=
  { df with
      publish_hour :=
        match df.publish_time with
        | some pt => some (pt.map Timestamp.hour)
        | none => df.publish_hour,
      publish_day :=
        match df.publish_time with
        | some pt => some (pt.map Timestamp.dayName)
        | none => df.publish_day }

/-- app.py lines 89-90: derive `title_length` when the title column is
present. -/
def titleStep (df : DataFrame) : DataFrame :=
  { df with title_length :=
      match df.title with
      | some t => some (t.map String.length)
      | none => df.title_length }

/-- The derivation part of `preprocess_data` (app.py lines 50-92), in source
order. -/
def deriveSteps (df : DataFrame) : DataFrame :=
  titleStep (publishStep (tagsStep (likeRatioStep (engagementStep
    (numericStep (categoryStep (dateStep df)))))))

/-- `preprocess_data(df, sample_size)` of app.py lines 44-92: subsample when
the table exceeds the cap (lines 47-48, `if len(df) > sample_size`), then
apply every guarded derivation in source order. -/
def preprocess_data (df : DataFrame) (sample_size : ℕ := 5000) : DataFrame :=
  deriveSteps (if sample_size < df.nrows then sampleFrame df sample_size 42 else df)

/-- `load_data(sample_size)` of app.py lines 16-42.  The two fallible fetch
stages (remote download, local file) and the possibility of an exception
inside preprocessing are abstracted as `Except Unit` values; `sample` is
the dataset `create_sample_data()` builds.  The nested try/except blocks
become the nested matches; the function is total, so no error ever reaches
the caller. -/
def load_data (remote localFile : Except Unit DataFrame)
    (pre : DataFrame → Except Unit DataFrame) (sample : DataFrame) : DataFrame :=
  let raw :=
    match remote with
    | .ok d => d
    | .error _ =>
        match localFile with
        | .ok d => d
        | .error _ => sample
  match pre raw with
  | .ok d => d
  | .error _ => sample

/-- One row of the preprocessed table as the filter of app.py lines 192-200
observes it: its category label, its (coerced) view count, and the rest of
the row, untouched by filtering. -/
structure VRow (α : Type) where
  category_name : String
  views : ℚ
  rest : α
deriving DecidableEq, Repr

/-- The filter stage of `main` (app.py lines 192-200): keep the rows of the
selected categories when the selection is nonempty (`if selected_categories`
truthiness plus `.isin`), then keep the rows whose view count lies in the
inclusive slider range. -/
def filterStage (rows : List (VRow α)) (sel : List String) (lo hi : ℚ) :
    List (VRow α) :=
  let rows :=
    if sel.isEmpty then rows
    else rows.filter (fun r => decide (r.category_name ∈ sel))
  rows.filter (fun r => decide (lo ≤ r.views) && decide (r.views ≤ hi))

/-- Round a value to 2 decimal places (for the spec's worked example). -/
def round2 (q : ℚ) : ℚ := (round (q * 100) : ℚ) / 100

/-- The spec's worked example: a 4-row table with
views = [0, 10, 100, 1000], likes = [0, 1, 10, 100], comments = [0,0,0,0]. -/
def exampleFrame : DataFrame :=
  { nrows := 4,
    views := some [CVal.num 0, CVal.num 10, CVal.num 100, CVal.num 1000],
    likes := some [CVal.num 0, CVal.num 1, CVal.num 10, CVal.num 100],
    comment_count := some [CVal.num 0, CVal.num 0, CVal.num 0, CVal.num 0] }

/-- The same 4-row table as the filter stage sees it (category labels are
arbitrary; the spec's example filters only on the view range). -/
def exampleRows : List (VRow Unit) :=
  [⟨"Music", 0, ()⟩, ⟨"Gaming", 10, ()⟩, ⟨"Sports", 100, ()⟩, ⟨"Comedy", 1000, ()⟩]

/-- A 3-row table used to exercise the sampling cap. -/
def cappedFrame : DataFrame :=
  { nrows := 3, views := some [CVal.num 1, CVal.num 2, CVal.num 3] }

/-- A 2-row table with a tags column whose second cell is missing (NaN). -/
def taggedFrame : DataFrame :=
  { nrows := 2, tags := some [CVal.str "a|b", CVal.na] }

/-- A stand-in for the synthetic dataset `create_sample_data()` returns. -/
def fallbackFrame : DataFrame := { nrows := 0 }

/-! ## Helper lemmas -/

lemma isSome_map (f : α → β) (x : Option α) : (x.map f).isSome = x.isSome := by
  cases x <;> rfl

/-- Python's split always produces at least one token. -/
lemma pySplit_length_pos (sep : Char) (l : List Char) : 1 ≤ (pySplit sep l).length := by
  induction l with
  | nil => simp [pySplit]
  | cons c rest ih =>
      rw [pySplit]
      by_cases h : c = sep
      · simp [h]
      · simp only [h, if_false]
        cases hr : pySplit sep rest with
        | nil => simp
        | cons t ts => simp

/-- Presence of every derived column after the derivation chain is exactly
determined by presence of its input columns (a missing input skips the
derivation and leaves the column as it was). -/
lemma derive_presence (g : DataFrame) :
    ((deriveSteps g).category_name.isSome = (g.category_id.isSome || g.category_name.isSome)) ∧
    ((deriveSteps g).engagement_rate.isSome
        = ((g.views.isSome && g.likes.isSome && g.comment_count.isSome) || g.engagement_rate.isSome)) ∧
    ((deriveSteps g).like_ratio.isSome = ((g.likes.isSome && g.dislikes.isSome) || g.like_ratio.isSome)) ∧
    ((deriveSteps g).tags_count.isSome = (g.tags.isSome || g.tags_count.isSome)) ∧
    ((deriveSteps g).publish_hour.isSome = (g.publish_time.isSome || g.publish_hour.isSome)) ∧
    ((deriveSteps g).publish_day.isSome = (g.publish_time.isSome || g.publish_day.isSome)) ∧
    ((deriveSteps g).title_length.isSome = (g.title.isSome || g.title_length.isSome)) ∧
    ((deriveSteps g).trending_date.isSome = g.trending_date.isSome) ∧
    ((deriveSteps g).views.isSome = g.views.isSome) := by
  refine ⟨?_, ?_, ?_, ?_, ?_, ?_, ?_, ?_, ?_⟩ <;>
    simp only [deriveSteps, titleStep, publishStep, tagsStep, likeRatioStep, engagementStep,
      numericStep, categoryStep, dateStep]
  · cases g.category_id <;> simp
  · cases g.views <;> cases g.likes <;> cases g.comment_count <;> simp
  · cases g.likes <;> cases g.dislikes <;> simp
  · cases g.tags <;> simp
  · cases g.publish_time <;> simp
  · cases g.publish_time <;> simp
  · cases g.title <;> simp
  · exact isSome_map _ _
  · exact isSome_map _ _

/-- Selecting rows at in-range indices yields one cell per index. -/
lemma selectRows_length (idxs : List ℕ) (col : List α)
    (h : ∀ i ∈ idxs, i < col.length) :
    (selectRows idxs col).length = idxs.length := by
  induction idxs with
  | nil => rfl
  | cons i is ih =>
      have hi : i < col.length := h i (by simp)
      simp only [selectRows, List.filterMap_cons, List.getElem?_eq_getElem hi]
      simp only [selectRows] at ih
      simp [ih (fun j hj => h j (List.mem_cons_of_mem _ hj))]

/-- When the cap does not exceed the table, the sampled index list has
exactly the capped length. -/
lemma sampleIdx_length (nrows n seed : ℕ) (h : n ≤ nrows) :
    (sampleIdx nrows n seed).length = n := by
  simp [sampleIdx, List.length_take, List.length_rotate, Nat.min_eq_left h]

/-- Every sampled index is a valid row index. -/
lemma sampleIdx_lt (nrows n seed i : ℕ) (h : i ∈ sampleIdx nrows n seed) :
    i < nrows :=
  List.mem_range.mp (List.mem_rotate.mp (List.take_subset _ _ h))

/-- The two sequential masks of the filter stage equal one filter by the
conjunction of the two predicates. -/
lemma filterStage_eq (rows : List (VRow α)) (sel : List String) (lo hi : ℚ) :
    filterStage rows sel lo hi
      = rows.filter (fun r =>
          (sel.isEmpty || decide (r.category_name ∈ sel))
            && (decide (lo ≤ r.views) && decide (r.views ≤ hi))) := by
  unfold filterStage
  cases hsel : sel.isEmpty <;>
    simp [List.filter_filter, Bool.and_comm]

/-! ## Claims -/

/-- C1: for every row the derived engagement_rate equals
(likes + comment_count) / (views + 1) * 100, so it is well-defined (the
denominator is 1) when views = 0; on the spec's 4-row example table the
derived column is [0, 100/11, 1000/101, 10000/1001], which rounds to
[0, 9.09, 9.90, 9.99]. -/
theorem engagement_rate_spec :
    (∀ l c v : ℚ, engagementRate l c v = (l + c) / (v + 1) * 100) ∧
    (∀ l c : ℚ, engagementRate l c 0 = (l + c) * 100) ∧
    (preprocess_data exampleFrame 5000).engagement_rate
      = some [0, 100/11, 1000/101, 10000/1001] ∧
    ((preprocess_data exampleFrame 5000).engagement_rate).map (List.map round2)
      = some [0, 909/100, 990/100, 999/100] := by
  refine ⟨fun _ _ _ => rfl, ?_, ?_, ?_⟩
  · intro l c; norm_num [engagementRate]
  · norm_num [preprocess_data, exampleFrame, deriveSteps, sampleFrame, dateStep, categoryStep,
      numericStep, engagementStep, likeRatioStep, tagsStep, publishStep, titleStep,
      engagementRate, colQ, coerceCell, zipWith3, toNumericCol]
  · norm_num [preprocess_data, exampleFrame, deriveSteps, sampleFrame, dateStep, categoryStep,
      numericStep, engagementStep, likeRatioStep, tagsStep, publishStep, titleStep,
      engagementRate, colQ, coerceCell, zipWith3, toNumericCol, round2, round_eq]

/-- C3 counterexample: the numeric coercion does not clamp negative values —
the parseable input "-5" survives as the negative number -5, so not every
coerced value is non-negative. -/
theorem numeric_coercion_negative_survives :
    toNumericCol [CVal.str "-5"] = [CVal.num (-5)] ∧ ¬(0 : ℚ) ≤ -5 := by
  constructor
  · decide
  · norm_num

/-- C3 (amended): after coercion every cell of a numeric counter column is a
number; any unparseable or missing input has become zero; every output is the
coercion of some input cell, and the outputs are all non-negative provided
every input cell coerces to a non-negative value (negative numeric inputs are
preserved, not clamped). -/
theorem numeric_coercion_amended :
    (∀ s : String, parseNumber s = none → coerceCell (CVal.str s) = 0) ∧
    (coerceCell CVal.na = 0) ∧
    (∀ col : List CVal, ∀ c' ∈ toNumericCol col, ∃ c ∈ col, c' = CVal.num (coerceCell c)) ∧
    (∀ col : List CVal, (∀ c ∈ col, 0 ≤ coerceCell c) →
       ∀ c' ∈ toNumericCol col, ∀ q, c' = CVal.num q → 0 ≤ q) := by
  refine ⟨?_, rfl, ?_, ?_⟩
  · intro s h; simp [coerceCell, h]
  · intro col c' hc'
    rcases List.mem_map.mp hc' with ⟨c, hc, rfl⟩
    exact ⟨c, hc, rfl⟩
  · intro col h c' hc' q hq
    rcases List.mem_map.mp hc' with ⟨c, hc, rfl⟩
    cases hq
    exact h c hc

/-- C3 witness: the unparseable input "abc" coerces to zero. -/
theorem numeric_coercion_amended_witness :
    parseNumber "abc" = none ∧ coerceCell (CVal.str "abc") = 0 :=
  ⟨by decide, numeric_coercion_amended.1 "abc" (by decide)⟩

/-- C5 counterexample: the fixed category lookup table does not have 14
entries. -/
theorem category_table_not_14 : ¬ category_mapping.length = 14 := by decide

/-- C5 (amended): the category derivation maps codes through the fixed
lookup table of 15 known categories, and every code not in the table gets
the sentinel label "Unknown". -/
theorem category_name_amended :
    category_mapping.length = 15 ∧
    (∀ code : Int, category_mapping.lookup code = none → categoryName code = "Unknown") ∧
    (∀ p ∈ category_mapping, categoryName p.1 = p.2) := by
  refine ⟨by decide, ?_, by decide⟩
  intro code h
  simp [categoryName, h]

/-- C5 witness: the unknown code 99 maps to "Unknown". -/
theorem category_name_amended_witness :
    category_mapping.lookup 99 = none ∧ categoryName 99 = "Unknown" :=
  ⟨by decide, category_name_amended.2.1 99 (by decide)⟩

/-- C8: for non-negative likes and dislikes, like_ratio lies in [0, 100]. -/
theorem like_ratio_bounds (l d : ℚ) (hl : 0 ≤ l) (hd : 0 ≤ d) :
    0 ≤ likeRatio l d ∧ likeRatio l d ≤ 100 := by
  have hpos : 0 < l + d + 1 := by linarith
  constructor
  · exact mul_nonneg (div_nonneg hl hpos.le) (by norm_num)
  · have h1 : l / (l + d + 1) ≤ 1 := (div_le_one hpos).mpr (by linarith)
    calc likeRatio l d = l / (l + d + 1) * 100 := rfl
      _ ≤ 1 * 100 := mul_le_mul_of_nonneg_right h1 (by norm_num)
      _ = 100 := by norm_num

/-- C8 witness: at likes = 3, dislikes = 1 the ratio is within [0, 100]. -/
theorem like_ratio_bounds_witness :
    (0 : ℚ) ≤ 3 ∧ (0 ≤ likeRatio 3 1 ∧ likeRatio 3 1 ≤ 100) :=
  ⟨by norm_num, like_ratio_bounds 3 1 (by norm_num) (by norm_num)⟩

/-- C4: the filter stage returns exactly the rows whose category is in the
selected set (all rows when the selection is empty) and whose view count
lies in the inclusive range [lo, hi]; it is one filter of the preprocessed
rows by the conjunction of the two predicates, so it is a pure function of
its three inputs.  On the spec's 4-row table, the range [10, 100] with no
category selection returns exactly the two middle rows. -/
theorem filter_stage_spec :
    (∀ (α : Type) (rows : List (VRow α)) (sel : List String) (lo hi : ℚ),
        filterStage rows sel lo hi = rows.filter (fun r =>
          (sel.isEmpty || decide (r.category_name ∈ sel))
            && (decide (lo ≤ r.views) && decide (r.views ≤ hi)))) ∧
    (∀ (α : Type) (rows : List (VRow α)) (sel : List String) (lo hi : ℚ) (r : VRow α),
        r ∈ filterStage rows sel lo hi ↔
          r ∈ rows ∧ (sel = [] ∨ r.category_name ∈ sel) ∧ lo ≤ r.views ∧ r.views ≤ hi) ∧
    filterStage exampleRows [] 10 100 = [⟨"Gaming", 10, ()⟩, ⟨"Sports", 100, ()⟩] := by
  refine ⟨fun α rows sel lo hi => filterStage_eq rows sel lo hi, ?_, ?_⟩
  · intro α rows sel lo hi r
    rw [filterStage_eq]
    simp [List.mem_filter, List.isEmpty_iff, and_assoc]
  · decide

/-- C9: filtering an already-filtered subset with the same selection and
range yields the same subset. -/
theorem filter_stage_idempotent (α : Type) (rows : List (VRow α))
    (sel : List String) (lo hi : ℚ) :
    filterStage (filterStage rows sel lo hi) sel lo hi = filterStage rows sel lo hi := by
  simp only [filterStage_eq, List.filter_filter, Bool.and_self]

/-- C2: the data-loading operation is total — whatever the outcomes of the
remote fetch, the local-file read and the preprocessing, it returns a
dataset; the returned value is either a successfully preprocessed table or
the synthetic sample, and when every fallible stage fails the synthetic
sample dataset itself is returned. -/
theorem load_data_never_fails (remote localFile : Except Unit DataFrame)
    (pre : DataFrame → Except Unit DataFrame) (sample : DataFrame) :
    ((∃ raw, pre raw = .ok (load_data remote localFile pre sample))
        ∨ load_data remote localFile pre sample = sample) ∧
    (remote = .error () → localFile = .error () → pre sample = .error () →
        load_data remote localFile pre sample = sample) := by
  constructor
  · unfold load_data
    rcases remote with e | d
    · rcases localFile with e' | d'
      · cases hp : pre sample with
        | ok d2 => exact Or.inl ⟨sample, by simp [hp]⟩
        | error e2 => exact Or.inr (by simp [hp])
      · cases hp : pre d' with
        | ok d2 => exact Or.inl ⟨d', by simp [hp]⟩
        | error e2 => exact Or.inr (by simp [hp])
    · cases hp : pre d with
      | ok d2 => exact Or.inl ⟨d, by simp [hp]⟩
      | error e2 => exact Or.inr (by simp [hp])
  · intro hr hl hp
    simp [load_data, hr, hl, hp]

/-- C2 witness: with the remote and local stages failing and preprocessing
raising, the loader returns the synthetic sample dataset. -/
theorem load_data_never_fails_witness :
    (Except.error () : Except Unit DataFrame) = Except.error () ∧
    load_data (Except.error ()) (Except.error ())
      (fun _ => Except.error ()) fallbackFrame = fallbackFrame :=
  ⟨rfl, (load_data_never_fails (Except.error ()) (Except.error ())
      (fun _ => Except.error ()) fallbackFrame).2 rfl rfl rfl⟩

/-- C6: the preprocessor is total on every input table — a missing optional
column only skips the derivation that depends on it (the derived column is
present exactly when its inputs are, or when the raw table already carried
it), and all remaining derivations are still applied. -/
theorem preprocess_tolerates_missing_columns (df : DataFrame) (n : ℕ) :
    ((preprocess_data df n).category_name.isSome
        = (df.category_id.isSome || df.category_name.isSome)) ∧
    ((preprocess_data df n).engagement_rate.isSome
        = ((df.views.isSome && df.likes.isSome && df.comment_count.isSome)
            || df.engagement_rate.isSome)) ∧
    ((preprocess_data df n).like_ratio.isSome
        = ((df.likes.isSome && df.dislikes.isSome) || df.like_ratio.isSome)) ∧
    ((preprocess_data df n).tags_count.isSome = (df.tags.isSome || df.tags_count.isSome)) ∧
    ((preprocess_data df n).publish_hour.isSome
        = (df.publish_time.isSome || df.publish_hour.isSome)) ∧
    ((preprocess_data df n).publish_day.isSome
        = (df.publish_time.isSome || df.publish_day.isSome)) ∧
    ((preprocess_data df n).title_length.isSome = (df.title.isSome || df.title_length.isSome)) ∧
    ((preprocess_data df n).trending_date.isSome = df.trending_date.isSome) ∧
    ((preprocess_data df n).views.isSome = df.views.isSome) := by
  have h := derive_presence (if n < df.nrows then sampleFrame df n 42 else df)
  by_cases hc : n < df.nrows
  · rw [if_pos hc] at h
    simpa [preprocess_data, if_pos hc, sampleFrame, isSome_map] using h
  · rw [if_neg hc] at h
    simpa [preprocess_data, if_neg hc] using h

/-- C7: the load-and-preprocess step is a pure function of the table, the
cap and the fixed seed (running it twice on the same inputs gives the same
table), and when the source table exceeds the cap the sampled result has
exactly `n` rows — in the row-count field and in the length of a present
column. -/
theorem sampling_deterministic_and_capped (df : DataFrame) (n : ℕ)
    (hn : n < df.nrows)
    (hwf : ∀ l, df.views = some l → l.length = df.nrows) :
    preprocess_data df n = preprocess_data df n ∧
    (preprocess_data df n).nrows = n ∧
    (∀ l, (preprocess_data df n).views = some l → l.length = n) := by
  refine ⟨rfl, ?_, ?_⟩
  · have h1 : (preprocess_data df n).nrows = (sampleFrame df n 42).nrows := by
      rw [preprocess_data, if_pos hn]
      rfl
    rw [h1]
    simp only [sampleFrame]
    omega
  · intro l hl
    have hv : (preprocess_data df n).views
        = (df.views.map (selectRows (sampleIdx df.nrows n 42))).map toNumericCol := by
      rw [preprocess_data, if_pos hn]
      rfl
    rw [hv] at hl
    cases hdv : df.views with
    | none => rw [hdv] at hl; simp at hl
    | some v =>
        rw [hdv] at hl
        simp only [Option.map_some'] at hl
        obtain rfl : l = toNumericCol (selectRows (sampleIdx df.nrows n 42) v) :=
          (Option.some.inj hl).symm
        have hlen : v.length = df.nrows := hwf v hdv
        have hidx : ∀ i ∈ sampleIdx df.nrows n 42, i < v.length := fun i hi => by
          rw [hlen]; exact sampleIdx_lt _ _ _ _ hi
        calc (toNumericCol (selectRows (sampleIdx df.nrows n 42) v)).length
            = (selectRows (sampleIdx df.nrows n 42) v).length := by simp [toNumericCol]
          _ = (sampleIdx df.nrows n 42).length := selectRows_length _ _ hidx
          _ = n := sampleIdx_length _ _ _ hn.le

/-- C7 witness: a 3-row table sampled down to the cap 2 has exactly
2 rows. -/
theorem sampling_deterministic_and_capped_witness :
    (2 : ℕ) < cappedFrame.nrows ∧ (preprocess_data cappedFrame 2).nrows = 2 :=
  ⟨by decide, (sampling_deterministic_and_capped cappedFrame 2 (by decide)
      (fun l hl => by injection hl with h; rw [← h]; rfl)).2.1⟩

/-- C10: whenever the input table has a tags column, every derived
tags_count value is at least 1; in particular a missing/NaN tag cell
stringifies to the placeholder "nan", which splits into one token. -/
theorem tags_count_at_least_one :
    tagsCountCell CVal.na = 1 ∧
    (∀ (df : DataFrame) (n : ℕ) (t : List CVal) (col : List ℕ),
        df.tags = some t → (preprocess_data df n).tags_count = some col →
        ∀ k, k ∈ col → 1 ≤ k) := by
  constructor
  · rfl
  · intro df n t col ht hcol k hk
    have key : ∀ g : DataFrame, ∀ t' : List CVal, g.tags = some t' →
        (deriveSteps g).tags_count = some (t'.map tagsCountCell) := by
      intro g t' h
      have hm : (deriveSteps g).tags_count
          = (match g.tags with
             | some x => some (x.map tagsCountCell)
             | none => g.tags_count) := rfl
      rw [hm, h]
    by_cases hn : n < df.nrows
    · rw [preprocess_data, if_pos hn] at hcol
      have hts : (sampleFrame df n 42).tags
          = some (selectRows (sampleIdx df.nrows n 42) t) := by
        simp [sampleFrame, ht]
      rw [key _ _ hts] at hcol
      obtain rfl : col = (selectRows (sampleIdx df.nrows n 42) t).map tagsCountCell :=
        (Option.some.inj hcol).symm
      rcases List.mem_map.mp hk with ⟨c, _, rfl⟩
      exact pySplit_length_pos _ _
    · rw [preprocess_data, if_neg hn] at hcol
      rw [key _ _ ht] at hcol
      obtain rfl : col = t.map tagsCountCell := (Option.some.inj hcol).symm
      rcases List.mem_map.mp hk with ⟨c, _, rfl⟩
      exact pySplit_length_pos _ _

/-- C10 witness: on a 2-row table whose tags are "a|b" and NaN, the derived
counts are [2, 1], all at least 1. -/
theorem tags_count_at_least_one_witness :
    (preprocess_data taggedFrame 5000).tags_count = some [2, 1] ∧ 1 ≤ 2 :=
  ⟨by decide, tags_count_at_least_one.2 taggedFrame 5000 [CVal.str "a|b", CVal.na]
      [2, 1] rfl (by decide) 2 (by decide)⟩
